import Mathlib

/-
Verification of the `UCesiumGlobeAnchorComponent` transform engine
(`Source/CesiumRuntime/Public/CesiumGlobeAnchorComponent.h`).

The repository provides the component's header: the full data model (all
UPROPERTY fields with their initializers, lines 43-173 and 452-491) and the
inline scalar accessors (lines 224-261) are source code and are embedded
directly.  The bodies of the non-inline member functions are not part of the
repository snapshot; those operations are modelled from the specification's
description of them (each such definition carries a doc comment starting
with `Modelled from the spec:`).

Doubles are embedded as exact rationals (ℚ); the external ellipsoid library
(geodetic/ECEF conversion, curvature rotation) is an explicit parameter
`EllipsoidModel`, since the component only calls it through its interface.
-/

set_option autoImplicit false

attribute [local semireducible] Rat.add Rat.sub Rat.mul Rat.inv Rat.ofScientific

namespace CesiumGlobeAnchor

/-- A 3-component double vector (glm::dvec3 / FVector), as exact rationals. -/
abbrev Vec3 : Type := ℚ × ℚ × ℚ

/-- The 3x3 rotation/scale part of a glm::dmat4. -/
structure Rot3 where
  m11 : ℚ
  m12 : ℚ
  m13 : ℚ
  m21 : ℚ
  m22 : ℚ
  m23 : ℚ
  m31 : ℚ
  m32 : ℚ
  m33 : ℚ
deriving DecidableEq

/-- Composition (matrix product) of two rotation/scale parts. -/
def Rot3.comp (A B : Rot3) : Rot3 :=
  ⟨A.m11 * B.m11 + A.m12 * B.m21 + A.m13 * B.m31,
   A.m11 * B.m12 + A.m12 * B.m22 + A.m13 * B.m32,
   A.m11 * B.m13 + A.m12 * B.m23 + A.m13 * B.m33,
   A.m21 * B.m11 + A.m22 * B.m21 + A.m23 * B.m31,
   A.m21 * B.m12 + A.m22 * B.m22 + A.m23 * B.m32,
   A.m21 * B.m13 + A.m22 * B.m23 + A.m23 * B.m33,
   A.m31 * B.m11 + A.m32 * B.m21 + A.m33 * B.m31,
   A.m31 * B.m12 + A.m32 * B.m22 + A.m33 * B.m32,
   A.m31 * B.m13 + A.m32 * B.m23 + A.m33 * B.m33⟩

/-- Application of a rotation/scale part to a vector. -/
def Rot3.apply (A : Rot3) (v : Vec3) : Vec3 :=
  (A.m11 * v.1 + A.m12 * v.2.1 + A.m13 * v.2.2,
   A.m21 * v.1 + A.m22 * v.2.1 + A.m23 * v.2.2,
   A.m31 * v.1 + A.m32 * v.2.1 + A.m33 * v.2.2)

/-- The identity rotation. -/
def idRot : Rot3 := ⟨1, 0, 0, 0, 1, 0, 0, 0, 1⟩

/--
A glm::dmat4 affine transform (`_actorToECEF`, header line 460): a
rotation/scale part plus a translation column.
-/
structure DMat4 where
  rot : Rot3
  tx : ℚ
  ty : ℚ
  tz : ℚ
deriving DecidableEq

/-- The translation column of an affine transform (column 3 of glm::dmat4). -/
def DMat4.translation (A : DMat4) : Vec3 := (A.tx, A.ty, A.tz)

/-- Composition of affine transforms: (A.comp B) v = A (B v). -/
def DMat4.comp (A B : DMat4) : DMat4 :=
  ⟨A.rot.comp B.rot,
   (A.rot.apply (B.tx, B.ty, B.tz)).1 + A.tx,
   (A.rot.apply (B.tx, B.ty, B.tz)).2.1 + A.ty,
   (A.rot.apply (B.tx, B.ty, B.tz)).2.2 + A.tz⟩

/-- The identity affine transform. -/
def idMat : DMat4 := ⟨idRot, 0, 0, 0⟩

/--
Modelled from the spec: "Longitude wraps to (-180, 180]" (spec section 4.2;
the conversion body lives in the external ellipsoid library, not in the
repository header).
-/
def wrapLongitude (lon : ℚ) : ℚ :=
  lon - 360 * ((⌈(lon - 180) / 360⌉ : ℤ) : ℚ)

/--
Modelled from the spec: "latitude is clamped, never wrapped" (spec section
4.2); clamped to the header's documented range [-90, 90] (header line 62).
-/
def clampLatitude (lat : ℚ) : ℚ := max (-90) (min 90 lat)

/--
The interface of the external ellipsoid/georeference math library (the
spec's section 1 "out of scope" collaborator).  The component calls it only
through these entry points, so the development is parameterized over it.
-/
structure EllipsoidModel where
  geodeticToEcef : Vec3 → Vec3
  rawGeodeticOfEcef : Vec3 → Vec3
  curvatureRotation : DMat4 → Vec3 → Rot3

/--
Modelled from the spec: the ECEF-to-geodetic projection as seen by the
component: the library's raw angles, with longitude wrapped to (-180, 180],
latitude clamped to [-90, 90], and the pole convention "default to 0" for
the longitude when the latitude is exactly at a pole (spec sections 4.2 and
7).  Result order is (longitude, latitude, height), matching
`GetLongitudeLatitudeHeight` (header line 264).
-/
def ecefToGeodetic (E : EllipsoidModel) (p : Vec3) : Vec3 :=
  (if clampLatitude (E.rawGeodeticOfEcef p).2.1 = 90 ∨
      clampLatitude (E.rawGeodeticOfEcef p).2.1 = -90
   then 0
   else wrapLongitude (E.rawGeodeticOfEcef p).1,
   clampLatitude (E.rawGeodeticOfEcef p).2.1,
   (E.rawGeodeticOfEcef p).2.2)

/--
Modelled from the spec: curvature adjustment (spec section 4.3) replaces the
candidate transform's orientation with one computed by the library from the
old transform and the new position; the translation is carried over
unchanged.
-/
def adjustTransform (E : EllipsoidModel) (Told Tnew : DMat4) : DMat4 :=
  { Tnew with rot := E.curvatureRotation Told (DMat4.translation Tnew) }

/--
A georeference actor as seen by the component (spec section 3): an identity
plus the local-to-ECEF transform and its inverse.
-/
structure Georef where
  gid : Nat
  localToEcef : DMat4
  ecefToLocal : DMat4
deriving DecidableEq

/--
The host scene as seen by the component: the owning actor's current local
transform and the georeference actors present in the level.
-/
structure World where
  actorTransform : DMat4
  georefs : List Georef
  nextId : Nat
deriving DecidableEq

/-- Look up a georeference actor by id (identity transforms as fallback). -/
def World.georefOf (w : World) (g : Nat) : Georef :=
  (w.georefs.find? fun x => x.gid == g).getD ⟨g, idMat, idMat⟩

/--
The state of a `UCesiumGlobeAnchorComponent`.  Every field is a UPROPERTY
or member variable of the header: `Georeference` (line 43),
`ResolvedGeoreference` (line 59), `Latitude` (line 71), `Longitude`
(line 82), `Height` (line 96), `ECEF_X`/`ECEF_Y`/`ECEF_Z` (lines 107, 118,
129), `TeleportWhenUpdatingTransform` (line 144),
`AdjustOrientationForGlobeWhenMoving` (line 173), `_actorToECEF`
(line 460), `_actorToECEFIsValid` (line 469), `_updatingActorTransform`
(line 476).  `subscribedTo` models the georeference-changed delegate
subscription the spec requires the resolver to maintain.
-/
structure GlobeAnchorState where
  Georeference : Option Nat
  ResolvedGeoreference : Option Nat
  Latitude : ℚ
  Longitude : ℚ
  Height : ℚ
  ECEF_X : ℚ
  ECEF_Y : ℚ
  ECEF_Z : ℚ
  TeleportWhenUpdatingTransform : Bool
  AdjustOrientationForGlobeWhenMoving : Bool
  actorToECEF : DMat4
  actorToECEFIsValid : Bool
  updatingActorTransform : Bool
  subscribedTo : Option Nat
deriving DecidableEq

/--
The state of a freshly constructed component, using exactly the header's
field initializers: `Georeference = nullptr` (line 43),
`ResolvedGeoreference = nullptr` (line 59), all six scalars `= 0.0`
(lines 71-129), both behavior flags `= true` (lines 144, 173),
`_actorToECEFIsValid = false` (line 469), `_updatingActorTransform = false`
(line 476).  The transform array is zero (UObjects are zero-initialized).
-/
def defaultState : GlobeAnchorState :=
  { Georeference := none
    ResolvedGeoreference := none
    Latitude := 0
    Longitude := 0
    Height := 0
    ECEF_X := 0
    ECEF_Y := 0
    ECEF_Z := 0
    TeleportWhenUpdatingTransform := true
    AdjustOrientationForGlobeWhenMoving := true
    actorToECEF := ⟨idRot, 0, 0, 0⟩
    actorToECEFIsValid := false
    updatingActorTransform := false
    subscribedTo := none }

/-- `GetLatitude` (header line 225): `return this->Latitude;`. -/
def GetLatitude (s : GlobeAnchorState) : ℚ := s.Latitude

/-- `GetLongitude` (header line 231): `return this->Longitude;`. -/
def GetLongitude (s : GlobeAnchorState) : ℚ := s.Longitude

/-- `GetHeight` (header line 240): `return this->Height;`. -/
def GetHeight (s : GlobeAnchorState) : ℚ := s.Height

/-- `GetEcefX` (header line 247): `return this->ECEF_X;`. -/
def GetEcefX (s : GlobeAnchorState) : ℚ := s.ECEF_X

/-- `GetEcefY` (header line 254): `return this->ECEF_Y;`. -/
def GetEcefY (s : GlobeAnchorState) : ℚ := s.ECEF_Y

/-- `GetEcefZ` (header line 261): `return this->ECEF_Z;`. -/
def GetEcefZ (s : GlobeAnchorState) : ℚ := s.ECEF_Z

/--
Modelled from the spec: the choice made by the georeference resolver when
nothing is cached (spec section 4.1; the body of `ResolveGeoreference` is
not in the repository header): the explicitly assigned georeference if set,
otherwise the first one discoverable in the current scene, otherwise a
newly created default one.
-/
def resolveChoice (w : World) (s : GlobeAnchorState) : World × Nat :=
  match s.Georeference with
  | some g => (w, g)
  | none =>
    match w.georefs with
    | gr :: _ => (w, gr.gid)
    | [] =>
      ({ actorTransform := w.actorTransform
         georefs := [⟨w.nextId, idMat, idMat⟩]
         nextId := w.nextId + 1 },
       w.nextId)

/--
Modelled from the spec: `ResolveGeoreference` (header lines 203-211, body
not in the repository header).  Returns the cached resolved georeference if
there is one; otherwise resolves per `resolveChoice`, caches the result,
and subscribes to its change notification.  The returned `Nat` is the
(never-null) resolved georeference.
-/
def ResolveGeoreference (w : World) (s : GlobeAnchorState) :
    World × GlobeAnchorState × Nat :=
  match s.ResolvedGeoreference with
  | some g => (w, s, g)
  | none =>
    ((resolveChoice w s).1,
     { s with
        ResolvedGeoreference := some (resolveChoice w s).2
        subscribedTo := some (resolveChoice w s).2 },
     (resolveChoice w s).2)

/--
Modelled from the spec: `InvalidateResolvedGeoreference` (header lines
213-219, body not in the repository header): unsubscribes from the cached
georeference and sets it to null.
-/
def InvalidateResolvedGeoreference (s : GlobeAnchorState) : GlobeAnchorState :=
  { s with ResolvedGeoreference := none, subscribedTo := none }

/--
Modelled from the spec: `SetGeoreference` (header lines 200-201, body not
in the repository header): stores the new designated georeference; setting
a new explicit georeference invalidates the old cached value immediately
(spec section 4.1).
-/
def SetGeoreference (s : GlobeAnchorState) (g : Option Nat) : GlobeAnchorState :=
  { InvalidateResolvedGeoreference s with Georeference := g }

/--
Modelled from the spec: `_updateGlobeTransformFromActorTransform` (header
lines 502-508, body not in the repository header): reads the current local
pose from the host scene graph, combines it with the georeference's
local-to-global transform (resolving the georeference lazily if needed),
stores the result as the globe transform, and sets validity to Valid.  No
side effect on the geodetic/ECEF scalars by itself (spec section 4.2).
-/
def updateGlobeTransformFromActorTransform (w : World) (s : GlobeAnchorState) :
    World × GlobeAnchorState :=
  ((ResolveGeoreference w s).1,
   { (ResolveGeoreference w s).2.1 with
      actorToECEF :=
        ((ResolveGeoreference w s).1.georefOf
          (ResolveGeoreference w s).2.2).localToEcef.comp w.actorTransform
      actorToECEFIsValid := true })

/--
Modelled from the spec: `_updateActorTransformFromGlobeTransform` (header
lines 510-519, body not in the repository header): combines the globe
transform with the georeference's global-to-local transform and writes the
resulting local pose to the host scene graph.
-/
def updateActorTransformFromGlobeTransform (w : World) (s : GlobeAnchorState) :
    World × GlobeAnchorState :=
  ({ (ResolveGeoreference w s).1 with
      actorTransform :=
        ((ResolveGeoreference w s).1.georefOf
          (ResolveGeoreference w s).2.2).ecefToLocal.comp s.actorToECEF },
   (ResolveGeoreference w s).2.1)

/--
Modelled from the spec: `_setGlobeTransform` (header lines 521-535, body
not in the repository header): if `AdjustOrientationForGlobeWhenMoving` is
enabled, replaces the new transform with its curvature-adjusted variant;
installs it as the globe transform, sets validity to Valid, and updates the
Actor transform to match.  Does not update the Longitude, Latitude, Height,
ECEF_X, ECEF_Y, or ECEF_Z properties (header lines 526-528).
-/
def setGlobeTransform (E : EllipsoidModel) (w : World) (s : GlobeAnchorState)
    (T : DMat4) : World × GlobeAnchorState :=
  updateActorTransformFromGlobeTransform w
    { s with
       actorToECEF :=
         if s.AdjustOrientationForGlobeWhenMoving then
           adjustTransform E s.actorToECEF T
         else T
       actorToECEFIsValid := true }

/--
Modelled from the spec: `_updateCartesianProperties` (header lines 546-550,
body not in the repository header): updates the ECEF_X, ECEF_Y, and ECEF_Z
properties from the translation of the current globe transform.
-/
def updateCartesianProperties (s : GlobeAnchorState) : GlobeAnchorState :=
  { s with
     ECEF_X := s.actorToECEF.tx
     ECEF_Y := s.actorToECEF.ty
     ECEF_Z := s.actorToECEF.tz }

/--
Modelled from the spec: `_updateCartographicProperties` (header lines
561-565, body not in the repository header): updates the Longitude,
Latitude, and Height properties by projecting the translation of the
current globe transform to geodetic coordinates.
-/
def updateCartographicProperties (E : EllipsoidModel) (s : GlobeAnchorState) :
    GlobeAnchorState :=
  { s with
     Longitude := (ecefToGeodetic E (DMat4.translation s.actorToECEF)).1
     Latitude := (ecefToGeodetic E (DMat4.translation s.actorToECEF)).2.1
     Height := (ecefToGeodetic E (DMat4.translation s.actorToECEF)).2.2 }

/--
Modelled from the spec: `_applyCartesianProperties` (header lines 537-544,
body not in the repository header): builds a globe transform whose
translation is the current ECEF scalar triple and whose orientation is the
existing globe transform's orientation, installs it via
`setGlobeTransform` (which also updates the Actor transform), then
refreshes the other scalar triple (Longitude, Latitude, Height).
-/
def applyCartesianProperties (E : EllipsoidModel) (w : World)
    (s : GlobeAnchorState) : World × GlobeAnchorState :=
  ((setGlobeTransform E w s ⟨s.actorToECEF.rot, s.ECEF_X, s.ECEF_Y, s.ECEF_Z⟩).1,
   updateCartographicProperties E
     (setGlobeTransform E w s ⟨s.actorToECEF.rot, s.ECEF_X, s.ECEF_Y, s.ECEF_Z⟩).2)

/--
Modelled from the spec: `_applyCartographicProperties` (header lines
552-559, body not in the repository header): converts the current
geodetic scalar triple to ECEF, builds a globe transform with that
translation and the existing orientation, installs it via
`setGlobeTransform`, then refreshes the other scalar triple (ECEF_X,
ECEF_Y, ECEF_Z).
-/
def applyCartographicProperties (E : EllipsoidModel) (w : World)
    (s : GlobeAnchorState) : World × GlobeAnchorState :=
  ((setGlobeTransform E w s
      ⟨s.actorToECEF.rot,
       (E.geodeticToEcef (s.Longitude, s.Latitude, s.Height)).1,
       (E.geodeticToEcef (s.Longitude, s.Latitude, s.Height)).2.1,
       (E.geodeticToEcef (s.Longitude, s.Latitude, s.Height)).2.2⟩).1,
   updateCartesianProperties
     (setGlobeTransform E w s
       ⟨s.actorToECEF.rot,
        (E.geodeticToEcef (s.Longitude, s.Latitude, s.Height)).1,
        (E.geodeticToEcef (s.Longitude, s.Latitude, s.Height)).2.1,
        (E.geodeticToEcef (s.Longitude, s.Latitude, s.Height)).2.2⟩).2)

/-- Overwrite the ECEF scalar triple (an editor-style property write). -/
def setECEFScalars (s : GlobeAnchorState) (t : Vec3) : GlobeAnchorState :=
  { s with ECEF_X := t.1, ECEF_Y := t.2.1, ECEF_Z := t.2.2 }

/-- Overwrite the geodetic scalar triple (an editor-style property write). -/
def setGeodeticScalars (s : GlobeAnchorState) (g : Vec3) : GlobeAnchorState :=
  { s with Longitude := g.1, Latitude := g.2.1, Height := g.2.2 }

/--
Modelled from the spec: `MoveToECEF` (header lines 347-357, body not in the
repository header): moves the Actor to the given ECEF position, storing the
target in the ECEF scalar properties, installing a globe transform with the
target translation and existing orientation (curvature-adjusted per the
enabled flag), and refreshing the geodetic scalars and the Actor transform.
-/
def MoveToECEF (E : EllipsoidModel) (w : World) (s : GlobeAnchorState)
    (t : Vec3) : World × GlobeAnchorState :=
  ((setGlobeTransform E w (setECEFScalars s t)
      ⟨s.actorToECEF.rot, t.1, t.2.1, t.2.2⟩).1,
   updateCartographicProperties E
     (setGlobeTransform E w (setECEFScalars s t)
       ⟨s.actorToECEF.rot, t.1, t.2.1, t.2.2⟩).2)

/--
Modelled from the spec: `MoveToLongitudeLatitudeHeight` (header lines
374-383, body not in the repository header): moves the Actor to the given
longitude (x), latitude (y), and height (z), storing the target in the
geodetic scalar properties, installing a globe transform whose translation
is the target converted to ECEF (curvature-adjusted per the enabled flag),
and refreshing the ECEF scalars and the Actor transform.
-/
def MoveToLongitudeLatitudeHeight (E : EllipsoidModel) (w : World)
    (s : GlobeAnchorState) (g : Vec3) : World × GlobeAnchorState :=
  ((setGlobeTransform E w (setGeodeticScalars s g)
      ⟨s.actorToECEF.rot, (E.geodeticToEcef g).1, (E.geodeticToEcef g).2.1,
       (E.geodeticToEcef g).2.2⟩).1,
   updateCartesianProperties
     (setGlobeTransform E w (setGeodeticScalars s g)
       ⟨s.actorToECEF.rot, (E.geodeticToEcef g).1, (E.geodeticToEcef g).2.1,
        (E.geodeticToEcef g).2.2⟩).2)

/--
Modelled from the spec: `OnComponentCreated` (header lines 411-421, body
not in the repository header): the header documents that the component
marks the globe transform invalid here, because it cannot assume a pasted
or duplicated component's globe transform is still valid.
-/
def OnComponentCreated (s : GlobeAnchorState) : GlobeAnchorState :=
  { s with actorToECEFIsValid := false }

/--
Modelled from the spec: the body of `_onActorTransformChanged` (header
lines 478-489) for a single delivery, with the re-entrancy guard check
factored out: recompute the globe transform from the new Actor transform,
curvature-adjust it when `AdjustOrientationForGlobeWhenMoving` is enabled,
refresh both scalar triples, and (when adjusting) write the adjusted local
pose back to the scene graph.  The returned Bool records whether a
write-back occurred (a write-back raises a further change notification).
-/
def transformChangedBody (E : EllipsoidModel) (w : World)
    (s : GlobeAnchorState) : World × GlobeAnchorState × Bool :=
  if s.AdjustOrientationForGlobeWhenMoving then
    ((updateActorTransformFromGlobeTransform
        (updateGlobeTransformFromActorTransform w s).1
        (updateCartographicProperties E
          (updateCartesianProperties
            { (updateGlobeTransformFromActorTransform w s).2 with
                actorToECEF :=
                  adjustTransform E s.actorToECEF
                    (updateGlobeTransformFromActorTransform w s).2.actorToECEF }))).1,
     (updateActorTransformFromGlobeTransform
        (updateGlobeTransformFromActorTransform w s).1
        (updateCartographicProperties E
          (updateCartesianProperties
            { (updateGlobeTransformFromActorTransform w s).2 with
                actorToECEF :=
                  adjustTransform E s.actorToECEF
                    (updateGlobeTransformFromActorTransform w s).2.actorToECEF }))).2,
     true)
  else
    ((updateGlobeTransformFromActorTransform w s).1,
     updateCartographicProperties E
       (updateCartesianProperties (updateGlobeTransformFromActorTransform w s).2),
     false)

/--
Modelled from the spec: `_onActorTransformChanged` (header lines 478-489,
body not in the repository header): if `_updatingActorTransform` is set the
notification is ignored (header lines 471-476); otherwise the guard is set,
the globe transform is recomputed, the write-back (when it occurs) delivers
a nested notification, and the guard is cleared.  The fuel bounds the
nesting depth of self-delivered notifications; the returned Nat counts how
many globe-transform recomputations were performed.
-/
def onActorTransformChangedFuel (E : EllipsoidModel) :
    Nat → World → GlobeAnchorState → World × GlobeAnchorState × Nat
  | 0, w, s => (w, s, 0)
  | fuel + 1, w, s =>
    if s.updatingActorTransform then (w, s, 0)
    else
      ((if (transformChangedBody E w
              { s with updatingActorTransform := true }).2.2 then
          onActorTransformChangedFuel E fuel
            (transformChangedBody E w
              { s with updatingActorTransform := true }).1
            (transformChangedBody E w
              { s with updatingActorTransform := true }).2.1
        else
          ((transformChangedBody E w
              { s with updatingActorTransform := true }).1,
           (transformChangedBody E w
              { s with updatingActorTransform := true }).2.1,
           0)).1,
       { (if (transformChangedBody E w
                { s with updatingActorTransform := true }).2.2 then
            onActorTransformChangedFuel E fuel
              (transformChangedBody E w
                { s with updatingActorTransform := true }).1
              (transformChangedBody E w
                { s with updatingActorTransform := true }).2.1
          else
            ((transformChangedBody E w
                { s with updatingActorTransform := true }).1,
             (transformChangedBody E w
                { s with updatingActorTransform := true }).2.1,
             0)).2.1 with updatingActorTransform := false },
       1 + (if (transformChangedBody E w
                  { s with updatingActorTransform := true }).2.2 then
              onActorTransformChangedFuel E fuel
                (transformChangedBody E w
                  { s with updatingActorTransform := true }).1
                (transformChangedBody E w
                  { s with updatingActorTransform := true }).2.1
            else
              ((transformChangedBody E w
                  { s with updatingActorTransform := true }).1,
               (transformChangedBody E w
                  { s with updatingActorTransform := true }).2.1,
               0)).2.2)

/--
Modelled from the spec: a single delivery of the local-pose-changed
notification, with enough fuel for the component's own nested
self-notification.
-/
def onActorTransformChanged (E : EllipsoidModel) (w : World)
    (s : GlobeAnchorState) : World × GlobeAnchorState × Nat :=
  onActorTransformChangedFuel E 2 w s

/--
The scalar-consistency invariant of the header's `_actorToECEFIsValid`
documentation (lines 462-469) and spec section 3: whenever the validity
flag is true, the ECEF scalar triple equals the translation of the stored
actor-to-ECEF transform and the geodetic scalar triple equals its geodetic
projection.
-/
def ScalarsSynced (E : EllipsoidModel) (s : GlobeAnchorState) : Prop :=
  s.actorToECEFIsValid = true →
    (s.ECEF_X, s.ECEF_Y, s.ECEF_Z) = DMat4.translation s.actorToECEF ∧
    (s.Longitude, s.Latitude, s.Height) =
      ecefToGeodetic E (DMat4.translation s.actorToECEF)

instance (E : EllipsoidModel) (s : GlobeAnchorState) :
    Decidable (ScalarsSynced E s) := by
  unfold ScalarsSynced
  infer_instance

/--
The spec's claimed behavior of a geodetic read while the validity flag is
Invalid, as its own definition for comparison with the header's inline
getters: first recompute the globe transform from the current local pose,
then derive the latitude from it.
-/
def claimedLatitudeRead (E : EllipsoidModel) (w : World)
    (s : GlobeAnchorState) : ℚ :=
  (updateCartographicProperties E
    (updateGlobeTransformFromActorTransform w s).2).Latitude

/-- A concrete ellipsoid-library instance with identity conversions. -/
def trivialEllipsoid : EllipsoidModel :=
  { geodeticToEcef := fun p => p
    rawGeodeticOfEcef := fun p => p
    curvatureRotation := fun T _ => T.rot }

/-- A concrete georeference actor for witnesses. -/
def demoGeoref : Georef := ⟨7, idMat, idMat⟩

/-- A concrete host scene for witnesses. -/
def demoWorld : World :=
  { actorTransform := idMat, georefs := [demoGeoref], nextId := 8 }

/-- A concrete component state with geodetic scalars set, for witnesses. -/
def demoState : GlobeAnchorState :=
  { defaultState with Longitude := 10, Latitude := 20, Height := 30 }

/-- A concrete component state whose re-entrancy guard is set. -/
def busyState : GlobeAnchorState :=
  { defaultState with updatingActorTransform := true }

/-- A concrete stale component state: invalid flag but nonzero latitude. -/
def staleState : GlobeAnchorState :=
  { defaultState with Latitude := 42 }

/-- A concrete state whose transform and scalar triples are in sync. -/
def syncedState : GlobeAnchorState :=
  { defaultState with
     actorToECEF := ⟨idRot, 10, 20, 30⟩
     actorToECEFIsValid := true
     ECEF_X := 10
     ECEF_Y := 20
     ECEF_Z := 30
     Longitude := 10
     Latitude := 20
     Height := 30 }

/-- A concrete state whose transform translation lies beyond the pole. -/
def poleState : GlobeAnchorState :=
  { defaultState with actorToECEF := ⟨idRot, 5, 200, 7⟩ }

/-- A concrete state with a cached resolved georeference. -/
def cachedState : GlobeAnchorState :=
  { defaultState with ResolvedGeoreference := some 5 }

/-- A concrete state with an explicitly designated georeference. -/
def explicitState : GlobeAnchorState :=
  { defaultState with Georeference := some 3 }

/-- A concrete host scene containing no georeference actor. -/
def emptyWorld : World :=
  { actorTransform := idMat, georefs := [], nextId := 0 }

@[simp]
lemma resolve_Latitude (w : World) (s : GlobeAnchorState) :
    (ResolveGeoreference w s).2.1.Latitude = s.Latitude := by
  cases h : s.ResolvedGeoreference <;> simp [ResolveGeoreference, h]

@[simp]
lemma resolve_Longitude (w : World) (s : GlobeAnchorState) :
    (ResolveGeoreference w s).2.1.Longitude = s.Longitude := by
  cases h : s.ResolvedGeoreference <;> simp [ResolveGeoreference, h]

@[simp]
lemma resolve_Height (w : World) (s : GlobeAnchorState) :
    (ResolveGeoreference w s).2.1.Height = s.Height := by
  cases h : s.ResolvedGeoreference <;> simp [ResolveGeoreference, h]

@[simp]
lemma resolve_ECEF_X (w : World) (s : GlobeAnchorState) :
    (ResolveGeoreference w s).2.1.ECEF_X = s.ECEF_X := by
  cases h : s.ResolvedGeoreference <;> simp [ResolveGeoreference, h]

@[simp]
lemma resolve_ECEF_Y (w : World) (s : GlobeAnchorState) :
    (ResolveGeoreference w s).2.1.ECEF_Y = s.ECEF_Y := by
  cases h : s.ResolvedGeoreference <;> simp [ResolveGeoreference, h]

@[simp]
lemma resolve_ECEF_Z (w : World) (s : GlobeAnchorState) :
    (ResolveGeoreference w s).2.1.ECEF_Z = s.ECEF_Z := by
  cases h : s.ResolvedGeoreference <;> simp [ResolveGeoreference, h]

@[simp]
lemma resolve_Teleport (w : World) (s : GlobeAnchorState) :
    (ResolveGeoreference w s).2.1.TeleportWhenUpdatingTransform =
      s.TeleportWhenUpdatingTransform := by
  cases h : s.ResolvedGeoreference <;> simp [ResolveGeoreference, h]

@[simp]
lemma resolve_Adjust (w : World) (s : GlobeAnchorState) :
    (ResolveGeoreference w s).2.1.AdjustOrientationForGlobeWhenMoving =
      s.AdjustOrientationForGlobeWhenMoving := by
  cases h : s.ResolvedGeoreference <;> simp [ResolveGeoreference, h]

@[simp]
lemma resolve_actorToECEF (w : World) (s : GlobeAnchorState) :
    (ResolveGeoreference w s).2.1.actorToECEF = s.actorToECEF := by
  cases h : s.ResolvedGeoreference <;> simp [ResolveGeoreference, h]

@[simp]
lemma resolve_valid_flag (w : World) (s : GlobeAnchorState) :
    (ResolveGeoreference w s).2.1.actorToECEFIsValid = s.actorToECEFIsValid := by
  cases h : s.ResolvedGeoreference <;> simp [ResolveGeoreference, h]

@[simp]
lemma resolve_updating (w : World) (s : GlobeAnchorState) :
    (ResolveGeoreference w s).2.1.updatingActorTransform =
      s.updatingActorTransform := by
  cases h : s.ResolvedGeoreference <;> simp [ResolveGeoreference, h]

@[simp]
lemma resolve_resolved (w : World) (s : GlobeAnchorState) :
    (ResolveGeoreference w s).2.1.ResolvedGeoreference =
      some (ResolveGeoreference w s).2.2 := by
  cases h : s.ResolvedGeoreference <;> simp [ResolveGeoreference, h]

@[simp]
lemma updateGlobe_Latitude (w : World) (s : GlobeAnchorState) :
    (updateGlobeTransformFromActorTransform w s).2.Latitude = s.Latitude := by
  simp [updateGlobeTransformFromActorTransform]

@[simp]
lemma updateGlobe_Longitude (w : World) (s : GlobeAnchorState) :
    (updateGlobeTransformFromActorTransform w s).2.Longitude = s.Longitude := by
  simp [updateGlobeTransformFromActorTransform]

@[simp]
lemma updateGlobe_Height (w : World) (s : GlobeAnchorState) :
    (updateGlobeTransformFromActorTransform w s).2.Height = s.Height := by
  simp [updateGlobeTransformFromActorTransform]

@[simp]
lemma updateGlobe_ECEF_X (w : World) (s : GlobeAnchorState) :
    (updateGlobeTransformFromActorTransform w s).2.ECEF_X = s.ECEF_X := by
  simp [updateGlobeTransformFromActorTransform]

@[simp]
lemma updateGlobe_ECEF_Y (w : World) (s : GlobeAnchorState) :
    (updateGlobeTransformFromActorTransform w s).2.ECEF_Y = s.ECEF_Y := by
  simp [updateGlobeTransformFromActorTransform]

@[simp]
lemma updateGlobe_ECEF_Z (w : World) (s : GlobeAnchorState) :
    (updateGlobeTransformFromActorTransform w s).2.ECEF_Z = s.ECEF_Z := by
  simp [updateGlobeTransformFromActorTransform]

@[simp]
lemma updateGlobe_Adjust (w : World) (s : GlobeAnchorState) :
    (updateGlobeTransformFromActorTransform w s).2.AdjustOrientationForGlobeWhenMoving =
      s.AdjustOrientationForGlobeWhenMoving := by
  simp [updateGlobeTransformFromActorTransform]

@[simp]
lemma updateGlobe_updating (w : World) (s : GlobeAnchorState) :
    (updateGlobeTransformFromActorTransform w s).2.updatingActorTransform =
      s.updatingActorTransform := by
  simp [updateGlobeTransformFromActorTransform]

@[simp]
lemma updateGlobe_valid (w : World) (s : GlobeAnchorState) :
    (updateGlobeTransformFromActorTransform w s).2.actorToECEFIsValid = true := by
  simp [updateGlobeTransformFromActorTransform]

@[simp]
lemma updateActor_state (w : World) (s : GlobeAnchorState) :
    (updateActorTransformFromGlobeTransform w s).2 =
      (ResolveGeoreference w s).2.1 := by
  simp [updateActorTransformFromGlobeTransform]

@[simp]
lemma updateCartesian_ECEF_X (s : GlobeAnchorState) :
    (updateCartesianProperties s).ECEF_X = s.actorToECEF.tx := rfl

@[simp]
lemma updateCartesian_ECEF_Y (s : GlobeAnchorState) :
    (updateCartesianProperties s).ECEF_Y = s.actorToECEF.ty := rfl

@[simp]
lemma updateCartesian_ECEF_Z (s : GlobeAnchorState) :
    (updateCartesianProperties s).ECEF_Z = s.actorToECEF.tz := rfl

@[simp]
lemma updateCartesian_Latitude (s : GlobeAnchorState) :
    (updateCartesianProperties s).Latitude = s.Latitude := rfl

@[simp]
lemma updateCartesian_Longitude (s : GlobeAnchorState) :
    (updateCartesianProperties s).Longitude = s.Longitude := rfl

@[simp]
lemma updateCartesian_Height (s : GlobeAnchorState) :
    (updateCartesianProperties s).Height = s.Height := rfl

@[simp]
lemma updateCartesian_actorToECEF (s : GlobeAnchorState) :
    (updateCartesianProperties s).actorToECEF = s.actorToECEF := rfl

@[simp]
lemma updateCartesian_valid (s : GlobeAnchorState) :
    (updateCartesianProperties s).actorToECEFIsValid = s.actorToECEFIsValid := rfl

@[simp]
lemma updateCartesian_updating (s : GlobeAnchorState) :
    (updateCartesianProperties s).updatingActorTransform =
      s.updatingActorTransform := rfl

@[simp]
lemma updateCartesian_Adjust (s : GlobeAnchorState) :
    (updateCartesianProperties s).AdjustOrientationForGlobeWhenMoving =
      s.AdjustOrientationForGlobeWhenMoving := rfl

@[simp]
lemma updateCartographic_Longitude (E : EllipsoidModel) (s : GlobeAnchorState) :
    (updateCartographicProperties E s).Longitude =
      (ecefToGeodetic E (DMat4.translation s.actorToECEF)).1 := rfl

@[simp]
lemma updateCartographic_Latitude (E : EllipsoidModel) (s : GlobeAnchorState) :
    (updateCartographicProperties E s).Latitude =
      (ecefToGeodetic E (DMat4.translation s.actorToECEF)).2.1 := rfl

@[simp]
lemma updateCartographic_Height (E : EllipsoidModel) (s : GlobeAnchorState) :
    (updateCartographicProperties E s).Height =
      (ecefToGeodetic E (DMat4.translation s.actorToECEF)).2.2 := rfl

@[simp]
lemma updateCartographic_ECEF_X (E : EllipsoidModel) (s : GlobeAnchorState) :
    (updateCartographicProperties E s).ECEF_X = s.ECEF_X := rfl

@[simp]
lemma updateCartographic_ECEF_Y (E : EllipsoidModel) (s : GlobeAnchorState) :
    (updateCartographicProperties E s).ECEF_Y = s.ECEF_Y := rfl

@[simp]
lemma updateCartographic_ECEF_Z (E : EllipsoidModel) (s : GlobeAnchorState) :
    (updateCartographicProperties E s).ECEF_Z = s.ECEF_Z := rfl

@[simp]
lemma updateCartographic_actorToECEF (E : EllipsoidModel) (s : GlobeAnchorState) :
    (updateCartographicProperties E s).actorToECEF = s.actorToECEF := rfl

@[simp]
lemma updateCartographic_valid (E : EllipsoidModel) (s : GlobeAnchorState) :
    (updateCartographicProperties E s).actorToECEFIsValid =
      s.actorToECEFIsValid := rfl

@[simp]
lemma updateCartographic_updating (E : EllipsoidModel) (s : GlobeAnchorState) :
    (updateCartographicProperties E s).updatingActorTransform =
      s.updatingActorTransform := rfl

@[simp]
lemma updateCartographic_Adjust (E : EllipsoidModel) (s : GlobeAnchorState) :
    (updateCartographicProperties E s).AdjustOrientationForGlobeWhenMoving =
      s.AdjustOrientationForGlobeWhenMoving := rfl

@[simp]
lemma adjustTransform_tx (E : EllipsoidModel) (Told Tnew : DMat4) :
    (adjustTransform E Told Tnew).tx = Tnew.tx := rfl

@[simp]
lemma adjustTransform_ty (E : EllipsoidModel) (Told Tnew : DMat4) :
    (adjustTransform E Told Tnew).ty = Tnew.ty := rfl

@[simp]
lemma adjustTransform_tz (E : EllipsoidModel) (Told Tnew : DMat4) :
    (adjustTransform E Told Tnew).tz = Tnew.tz := rfl

@[simp]
lemma adjustTransform_translation (E : EllipsoidModel) (Told Tnew : DMat4) :
    DMat4.translation (adjustTransform E Told Tnew) = DMat4.translation Tnew :=
  rfl

@[simp]
lemma setGlobe_actorToECEF (E : EllipsoidModel) (w : World)
    (s : GlobeAnchorState) (T : DMat4) :
    (setGlobeTransform E w s T).2.actorToECEF =
      if s.AdjustOrientationForGlobeWhenMoving then
        adjustTransform E s.actorToECEF T
      else T := by
  simp [setGlobeTransform]

@[simp]
lemma setGlobe_valid (E : EllipsoidModel) (w : World) (s : GlobeAnchorState)
    (T : DMat4) : (setGlobeTransform E w s T).2.actorToECEFIsValid = true := by
  simp [setGlobeTransform]

@[simp]
lemma setGlobe_Latitude (E : EllipsoidModel) (w : World) (s : GlobeAnchorState)
    (T : DMat4) : (setGlobeTransform E w s T).2.Latitude = s.Latitude := by
  simp [setGlobeTransform]

@[simp]
lemma setGlobe_Longitude (E : EllipsoidModel) (w : World) (s : GlobeAnchorState)
    (T : DMat4) : (setGlobeTransform E w s T).2.Longitude = s.Longitude := by
  simp [setGlobeTransform]

@[simp]
lemma setGlobe_Height (E : EllipsoidModel) (w : World) (s : GlobeAnchorState)
    (T : DMat4) : (setGlobeTransform E w s T).2.Height = s.Height := by
  simp [setGlobeTransform]

@[simp]
lemma setGlobe_ECEF_X (E : EllipsoidModel) (w : World) (s : GlobeAnchorState)
    (T : DMat4) : (setGlobeTransform E w s T).2.ECEF_X = s.ECEF_X := by
  simp [setGlobeTransform]

@[simp]
lemma setGlobe_ECEF_Y (E : EllipsoidModel) (w : World) (s : GlobeAnchorState)
    (T : DMat4) : (setGlobeTransform E w s T).2.ECEF_Y = s.ECEF_Y := by
  simp [setGlobeTransform]

@[simp]
lemma setGlobe_ECEF_Z (E : EllipsoidModel) (w : World) (s : GlobeAnchorState)
    (T : DMat4) : (setGlobeTransform E w s T).2.ECEF_Z = s.ECEF_Z := by
  simp [setGlobeTransform]

@[simp]
lemma setGlobe_updating (E : EllipsoidModel) (w : World) (s : GlobeAnchorState)
    (T : DMat4) :
    (setGlobeTransform E w s T).2.updatingActorTransform =
      s.updatingActorTransform := by
  simp [setGlobeTransform]

lemma wrapLongitude_range (lon : ℚ) :
    -180 < wrapLongitude lon ∧ wrapLongitude lon ≤ 180 := by
  unfold wrapLongitude
  have h1 : (lon - 180) / 360 ≤ ((⌈(lon - 180) / 360⌉ : ℤ) : ℚ) := Int.le_ceil _
  have h2 : ((⌈(lon - 180) / 360⌉ : ℤ) : ℚ) < (lon - 180) / 360 + 1 :=
    Int.ceil_lt_add_one _
  constructor <;> linarith

lemma clampLatitude_range (lat : ℚ) :
    -90 ≤ clampLatitude lat ∧ clampLatitude lat ≤ 90 := by
  unfold clampLatitude
  exact ⟨le_max_left _ _, max_le (by norm_num) (min_le_left _ _)⟩

lemma ecefToGeodetic_longitude_range (E : EllipsoidModel) (p : Vec3) :
    -180 < (ecefToGeodetic E p).1 ∧ (ecefToGeodetic E p).1 ≤ 180 := by
  unfold ecefToGeodetic
  split_ifs with h
  · norm_num
  · exact wrapLongitude_range _

lemma ecefToGeodetic_latitude_range (E : EllipsoidModel) (p : Vec3) :
    -90 ≤ (ecefToGeodetic E p).2.1 ∧ (ecefToGeodetic E p).2.1 ≤ 90 := by
  unfold ecefToGeodetic
  exact clampLatitude_range _

lemma ecefToGeodetic_pole (E : EllipsoidModel) (p : Vec3)
    (h : (ecefToGeodetic E p).2.1 = 90 ∨ (ecefToGeodetic E p).2.1 = -90) :
    (ecefToGeodetic E p).1 = 0 := by
  unfold ecefToGeodetic at h ⊢
  split_ifs with hc
  · rfl
  · exact absurd h hc

lemma applyCartesian_synced (E : EllipsoidModel) (w : World)
    (s : GlobeAnchorState) :
    ScalarsSynced E (applyCartesianProperties E w s).2 := by
  intro _
  constructor
  · simp [applyCartesianProperties, DMat4.translation]
    split_ifs <;> simp [adjustTransform]
  · simp [applyCartesianProperties]

lemma applyCartographic_synced (E : EllipsoidModel) (w : World)
    (s : GlobeAnchorState)
    (hrt : ecefToGeodetic E
        (E.geodeticToEcef (s.Longitude, s.Latitude, s.Height)) =
      (s.Longitude, s.Latitude, s.Height)) :
    ScalarsSynced E (applyCartographicProperties E w s).2 := by
  intro _
  constructor
  · simp [applyCartographicProperties, DMat4.translation]
  · simp [applyCartographicProperties, DMat4.translation]
    split_ifs <;> simp [adjustTransform, hrt]

lemma body_updating (E : EllipsoidModel) (w : World) (s : GlobeAnchorState) :
    (transformChangedBody E w s).2.1.updatingActorTransform =
      s.updatingActorTransform := by
  unfold transformChangedBody
  split_ifs <;> simp

lemma notification_ignored_when_busy (E : EllipsoidModel) (fuel : Nat)
    (w : World) (s : GlobeAnchorState) (h : s.updatingActorTransform = true) :
    onActorTransformChangedFuel E fuel w s = (w, s, 0) := by
  cases fuel with
  | zero => rfl
  | succ n => simp [onActorTransformChangedFuel, h]

lemma notification_single_recomputation (E : EllipsoidModel) (fuel : Nat)
    (w : World) (s : GlobeAnchorState) (h : s.updatingActorTransform = false) :
    (onActorTransformChangedFuel E (fuel + 1) w s).2.2 = 1 ∧
    (onActorTransformChangedFuel E (fuel + 1) w s).2.1.updatingActorTransform =
      false := by
  have hb : (transformChangedBody E w
      { s with updatingActorTransform := true }).2.1.updatingActorTransform =
        true := by
    rw [body_updating]
  simp only [onActorTransformChangedFuel, h]
  cases hwb : (transformChangedBody E w
      { s with updatingActorTransform := true }).2.2 with
  | true =>
    rw [notification_ignored_when_busy E fuel _ _ hb]
    simp [hwb]
  | false => simp [hwb]

lemma resolve_cached (w : World) (s : GlobeAnchorState) (g : Nat)
    (h : s.ResolvedGeoreference = some g) :
    ResolveGeoreference w s = (w, s, g) := by
  simp [ResolveGeoreference, h]

lemma resolve_world_id_congr (w : World) (s1 s2 : GlobeAnchorState)
    (hg : s1.Georeference = s2.Georeference)
    (hr : s1.ResolvedGeoreference = s2.ResolvedGeoreference) :
    (ResolveGeoreference w s1).1 = (ResolveGeoreference w s2).1 ∧
    (ResolveGeoreference w s1).2.2 = (ResolveGeoreference w s2).2.2 := by
  unfold ResolveGeoreference resolveChoice
  rw [hg, hr]
  cases h1 : s2.ResolvedGeoreference <;> cases h2 : s2.Georeference <;> simp

/--
Claim C10: a freshly constructed component has Latitude, Longitude, Height,
ECEF_X, ECEF_Y, and ECEF_Z all equal to 0.0, TeleportWhenUpdatingTransform
and AdjustOrientationForGlobeWhenMoving both true, the validity flag false,
and the resolved georeference null (until ResolveGeoreference is first
called).  These are exactly the field initializers of the header.
-/
theorem default_component_state :
    defaultState.Latitude = 0 ∧ defaultState.Longitude = 0 ∧
    defaultState.Height = 0 ∧ defaultState.ECEF_X = 0 ∧
    defaultState.ECEF_Y = 0 ∧ defaultState.ECEF_Z = 0 ∧
    defaultState.TeleportWhenUpdatingTransform = true ∧
    defaultState.AdjustOrientationForGlobeWhenMoving = true ∧
    defaultState.actorToECEFIsValid = false ∧
    defaultState.ResolvedGeoreference = none := by
  decide

/--
Claim C5: every freshly created component instance, including one produced
by paste or duplicate of an existing component (`OnComponentCreated`),
starts with the validity flag Invalid, so the first recomputation of the
globe transform derives it from the current local pose: the result of
`_updateGlobeTransformFromActorTransform` after `OnComponentCreated` is
independent of whatever globe transform was copied into the component.
-/
theorem componentCreated_invalidates_globe_transform (w : World)
    (s : GlobeAnchorState) (T : DMat4) :
    (OnComponentCreated s).actorToECEFIsValid = false ∧
    defaultState.actorToECEFIsValid = false ∧
    (updateGlobeTransformFromActorTransform w
        (OnComponentCreated { s with actorToECEF := T })).2.actorToECEF =
      (updateGlobeTransformFromActorTransform w
        (OnComponentCreated s)).2.actorToECEF := by
  refine ⟨rfl, rfl, ?_⟩
  have h := resolve_world_id_congr w
    (OnComponentCreated { s with actorToECEF := T }) (OnComponentCreated s)
    rfl rfl
  simp [updateGlobeTransformFromActorTransform, h.1, h.2]

/--
Claim C3 as stated is false on the code: the header's inline scalar getters
return the stored property value directly, with no implicit recomputation
of the globe transform.  At the concrete state `staleState` the validity
flag is false and `GetLatitude` returns the stored 42, while the value the
claim promises (recompute the globe transform from the current local pose,
then derive the latitude) is 0.
-/
theorem scalar_getter_no_implicit_update_cex :
    staleState.actorToECEFIsValid = false ∧
    GetLatitude staleState = 42 ∧
    claimedLatitudeRead trivialEllipsoid demoWorld staleState = 0 ∧
    GetLatitude staleState ≠
      claimedLatitudeRead trivialEllipsoid demoWorld staleState := by
  decide

/--
Claim C3, amended: the scalar read accessors perform no recomputation and
return exactly the stored property values; those values are guaranteed
consistent with the stored globe transform only when the validity flag is
true and the scalar-sync invariant holds (as the apply/moveTo operations
establish), not on arbitrary reads while the flag is Invalid.
-/
theorem scalar_getters_consistent_when_valid (E : EllipsoidModel)
    (s : GlobeAnchorState) (hv : s.actorToECEFIsValid = true)
    (hs : ScalarsSynced E s) :
    (GetEcefX s, GetEcefY s, GetEcefZ s) = DMat4.translation s.actorToECEF ∧
    (GetLongitude s, GetLatitude s, GetHeight s) =
      ecefToGeodetic E (DMat4.translation s.actorToECEF) :=
  hs hv

/--
Witness for the amended claim C3 at a concrete in-sync state.
-/
theorem scalar_getters_consistent_when_valid_witness :
    (GetEcefX syncedState, GetEcefY syncedState, GetEcefZ syncedState) =
      DMat4.translation syncedState.actorToECEF ∧
    (GetLongitude syncedState, GetLatitude syncedState, GetHeight syncedState) =
      ecefToGeodetic trivialEllipsoid
        (DMat4.translation syncedState.actorToECEF) :=
  scalar_getters_consistent_when_valid trivialEllipsoid syncedState
    (by decide) (by decide)

/--
Claim C1: after each of the apply/moveTo operations completes, whenever the
validity flag is true the ECEF scalar triple and the geodetic scalar triple
both equal the values derived from the translation component of the stored
actor-to-ECEF transform (exactly, since the embedding is exact-rational;
the floating-point tolerance of the claim degenerates to equality).  For
the cartographic-driven operations this requires the ellipsoid library's
round trip to be exact at the applied triple, which is the same
within-tolerance assumption the spec makes.
-/
theorem applyOps_establish_scalar_sync (E : EllipsoidModel) (w : World)
    (s : GlobeAnchorState) (t g : Vec3) :
    ScalarsSynced E (applyCartesianProperties E w s).2 ∧
    (ecefToGeodetic E (E.geodeticToEcef (s.Longitude, s.Latitude, s.Height)) =
        (s.Longitude, s.Latitude, s.Height) →
      ScalarsSynced E (applyCartographicProperties E w s).2) ∧
    ScalarsSynced E (MoveToECEF E w s t).2 ∧
    (ecefToGeodetic E (E.geodeticToEcef g) = g →
      ScalarsSynced E (MoveToLongitudeLatitudeHeight E w s g).2) :=
  ⟨applyCartesian_synced E w s,
   fun h => applyCartographic_synced E w s h,
   applyCartesian_synced E w (setECEFScalars s t),
   fun h => applyCartographic_synced E w (setGeodeticScalars s g) h⟩

/--
Witness for claim C1 at concrete inputs, with the round-trip hypotheses
discharged by computation.
-/
theorem applyOps_establish_scalar_sync_witness :
    ScalarsSynced trivialEllipsoid
      (applyCartesianProperties trivialEllipsoid demoWorld demoState).2 ∧
    ScalarsSynced trivialEllipsoid
      (applyCartographicProperties trivialEllipsoid demoWorld demoState).2 ∧
    ScalarsSynced trivialEllipsoid
      (MoveToECEF trivialEllipsoid demoWorld demoState (1, 2, 3)).2 ∧
    ScalarsSynced trivialEllipsoid
      (MoveToLongitudeLatitudeHeight trivialEllipsoid demoWorld demoState
        (-20, -30, 5)).2 :=
  ⟨(applyOps_establish_scalar_sync trivialEllipsoid demoWorld demoState
      (1, 2, 3) (-20, -30, 5)).1,
   (applyOps_establish_scalar_sync trivialEllipsoid demoWorld demoState
      (1, 2, 3) (-20, -30, 5)).2.1 (by decide),
   (applyOps_establish_scalar_sync trivialEllipsoid demoWorld demoState
      (1, 2, 3) (-20, -30, 5)).2.2.1,
   (applyOps_establish_scalar_sync trivialEllipsoid demoWorld demoState
      (1, 2, 3) (-20, -30, 5)).2.2.2 (by decide)⟩

/--
Claim C2: a notification delivered while the re-entrancy guard
`_updatingActorTransform` is set performs no state change and no
recomputation; a single external notification (guard clear) performs
exactly one globe-transform recomputation — even though the component's
own write-back of the adjusted local pose delivers a nested notification —
and leaves the guard clear afterwards.
-/
theorem transformChanged_reentrancy_guard (E : EllipsoidModel) (fuel : Nat)
    (w : World) (s : GlobeAnchorState) :
    (s.updatingActorTransform = true →
      onActorTransformChangedFuel E fuel w s = (w, s, 0)) ∧
    (s.updatingActorTransform = false →
      (onActorTransformChangedFuel E (fuel + 1) w s).2.2 = 1 ∧
      (onActorTransformChangedFuel E
          (fuel + 1) w s).2.1.updatingActorTransform = false) :=
  ⟨fun h => notification_ignored_when_busy E fuel w s h,
   fun h => notification_single_recomputation E fuel w s h⟩

/--
Witness for claim C2: a guarded state is left untouched; an external
notification at a concrete state counts exactly one recomputation.
-/
theorem transformChanged_reentrancy_guard_witness :
    onActorTransformChangedFuel trivialEllipsoid 3 demoWorld busyState =
      (demoWorld, busyState, 0) ∧
    (onActorTransformChangedFuel trivialEllipsoid 1 demoWorld demoState).2.2 =
      1 :=
  ⟨(transformChanged_reentrancy_guard trivialEllipsoid 3 demoWorld
      busyState).1 (by decide),
   ((transformChanged_reentrancy_guard trivialEllipsoid 0 demoWorld
      demoState).2 (by decide)).1⟩

/--
Claim C4: ResolveGeoreference returns the cached instance unchanged when
one exists; otherwise it returns the explicitly assigned georeference if
set, else the first georeference in the scene, else a newly created one;
the cached result is never null; a second call returns the same instance
and changes nothing; InvalidateResolvedGeoreference and setting a new
explicit georeference clear the cache.
-/
theorem resolveGeoreference_contract_holds (w : World) (s : GlobeAnchorState) :
    (ResolveGeoreference w s).2.1.ResolvedGeoreference =
      some (ResolveGeoreference w s).2.2 ∧
    (∀ g, s.ResolvedGeoreference = some g →
      ResolveGeoreference w s = (w, s, g)) ∧
    (∀ g, s.ResolvedGeoreference = none → s.Georeference = some g →
      (ResolveGeoreference w s).2.2 = g ∧ (ResolveGeoreference w s).1 = w) ∧
    (∀ gr rest, s.ResolvedGeoreference = none → s.Georeference = none →
      w.georefs = gr :: rest →
      (ResolveGeoreference w s).2.2 = gr.gid ∧
      (ResolveGeoreference w s).1 = w) ∧
    (s.ResolvedGeoreference = none → s.Georeference = none →
      w.georefs = [] →
      (ResolveGeoreference w s).2.2 = w.nextId ∧
      (ResolveGeoreference w s).1.georefs.map Georef.gid = [w.nextId]) ∧
    ResolveGeoreference (ResolveGeoreference w s).1
        (ResolveGeoreference w s).2.1 =
      ResolveGeoreference w s ∧
    (InvalidateResolvedGeoreference s).ResolvedGeoreference = none ∧
    (∀ og, (SetGeoreference s og).ResolvedGeoreference = none) := by
  refine ⟨resolve_resolved w s, fun g h => resolve_cached w s g h,
    ?_, ?_, ?_, ?_, rfl, fun og => rfl⟩
  · intro g hr hg
    simp [ResolveGeoreference, resolveChoice, hr, hg]
  · intro gr rest hr hg hw
    simp [ResolveGeoreference, resolveChoice, hr, hg, hw]
  · intro hr hg hw
    simp [ResolveGeoreference, resolveChoice, hr, hg, hw]
  · rw [resolve_cached (ResolveGeoreference w s).1 (ResolveGeoreference w s).2.1
      (ResolveGeoreference w s).2.2 (resolve_resolved w s)]

/--
Witness for claim C4: the cached, explicitly-assigned, found-in-scene, and
created cases at concrete inputs.
-/
theorem resolveGeoreference_contract_holds_witness :
    ResolveGeoreference demoWorld cachedState = (demoWorld, cachedState, 5) ∧
    (ResolveGeoreference demoWorld explicitState).2.2 = 3 ∧
    (ResolveGeoreference demoWorld demoState).2.2 = 7 ∧
    (ResolveGeoreference emptyWorld demoState).2.2 = 0 :=
  ⟨(resolveGeoreference_contract_holds demoWorld cachedState).2.1 5 (by decide),
   ((resolveGeoreference_contract_holds demoWorld explicitState).2.2.1 3
      (by decide) (by decide)).1,
   ((resolveGeoreference_contract_holds demoWorld demoState).2.2.2.1 demoGeoref
      [] (by decide) (by decide) (by decide)).1,
   ((resolveGeoreference_contract_holds emptyWorld demoState).2.2.2.2.1
      (by decide) (by decide) (by decide)).1⟩

/--
Claim C7: MoveToECEF(target) produces exactly the same world and component
state as first storing the target in the ECEF scalar triple and then
running the apply-Cartesian operation; symmetrically for
MoveToLongitudeLatitudeHeight with the geodetic triple and the
apply-cartographic operation (both sides share the same curvature
adjustment per the enabled flag, inside `setGlobeTransform`).
-/
theorem moveTo_equals_set_then_apply (E : EllipsoidModel) (w : World)
    (s : GlobeAnchorState) (t g : Vec3) :
    MoveToECEF E w s t = applyCartesianProperties E w (setECEFScalars s t) ∧
    MoveToLongitudeLatitudeHeight E w s g =
      applyCartographicProperties E w (setGeodeticScalars s g) :=
  ⟨rfl, rfl⟩

/--
Claim C8: `_setGlobeTransform T` installs T — replaced by its
curvature-adjusted variant when AdjustOrientationForGlobeWhenMoving is
enabled — as the globe transform, sets the validity flag to Valid, and
leaves the Longitude, Latitude, Height, ECEF_X, ECEF_Y, and ECEF_Z scalar
properties unchanged.
-/
theorem setGlobeTransform_frame_conditions (E : EllipsoidModel) (w : World)
    (s : GlobeAnchorState) (T : DMat4) :
    (setGlobeTransform E w s T).2.actorToECEFIsValid = true ∧
    (setGlobeTransform E w s T).2.actorToECEF =
      (if s.AdjustOrientationForGlobeWhenMoving then
        adjustTransform E s.actorToECEF T
      else T) ∧
    (setGlobeTransform E w s T).2.Longitude = s.Longitude ∧
    (setGlobeTransform E w s T).2.Latitude = s.Latitude ∧
    (setGlobeTransform E w s T).2.Height = s.Height ∧
    (setGlobeTransform E w s T).2.ECEF_X = s.ECEF_X ∧
    (setGlobeTransform E w s T).2.ECEF_Y = s.ECEF_Y ∧
    (setGlobeTransform E w s T).2.ECEF_Z = s.ECEF_Z := by
  refine ⟨?_, ?_, ?_, ?_, ?_, ?_, ?_, ?_⟩ <;> simp

/--
Claim C9: whenever the geodetic scalars are recomputed from the globe
transform, the resulting longitude lies in (-180, 180], the resulting
latitude lies in [-90, 90] by clamping, and at latitude exactly plus or
minus 90 degrees the stored longitude is the stable finite value 0 (the
embedding is exact-rational, so no NaN can arise).
-/
theorem cartographic_update_domains (E : EllipsoidModel)
    (s : GlobeAnchorState) :
    (-180 < (updateCartographicProperties E s).Longitude ∧
      (updateCartographicProperties E s).Longitude ≤ 180) ∧
    (-90 ≤ (updateCartographicProperties E s).Latitude ∧
      (updateCartographicProperties E s).Latitude ≤ 90) ∧
    ((updateCartographicProperties E s).Latitude = 90 ∨
        (updateCartographicProperties E s).Latitude = -90 →
      (updateCartographicProperties E s).Longitude = 0) := by
  refine ⟨?_, ?_, ?_⟩
  · simpa using ecefToGeodetic_longitude_range E
      (DMat4.translation s.actorToECEF)
  · simpa using ecefToGeodetic_latitude_range E
      (DMat4.translation s.actorToECEF)
  · intro h
    simp only [updateCartographic_Longitude]
    exact ecefToGeodetic_pole E _ (by simpa using h)

/--
Witness for claim C9: at a concrete state whose raw latitude clamps to the
pole, the update stores latitude 90 and longitude 0.
-/
theorem cartographic_update_domains_witness :
    (updateCartographicProperties trivialEllipsoid poleState).Latitude = 90 ∧
    (updateCartographicProperties trivialEllipsoid poleState).Longitude = 0 :=
  ⟨by decide,
   (cartographic_update_domains trivialEllipsoid poleState).2.2
     (Or.inl (by decide))⟩

end CesiumGlobeAnchor
